import Mathlib

/-!
# PyLive Audio Queue & Stream Controller — verification development

Shallow embedding of the PyLive server core (`src/server.py`,
`src/extractor.py`, `src/routes/queue.py`) and proofs about its
queue management, history, event fan-out, stream header and
shutdown behaviour.

Conventions of the embedding:
* Python `list` becomes `List`; `queue.Queue` contents become a `List`
  with the front of the list as the oldest element.
* Python byte strings become `List Nat` (one `Nat` per byte).
* Python `None`-able values become `Option`.
* Raised exceptions become `Except` errors.
* Calls to the external track source (network) are passed in as
  explicit arguments, since their results are inputs to the code.
-/

namespace PyLive

/-! ## Track model

`BaseExtractModel` in the source is an untyped dict; the queue code only
inspects the `id` key (`track.get("id")`, which is `None` when absent and
may be any string).  We model the fields the queue manager reads. -/

structure Track where
  tid : Option String := none
  deriving DecidableEq, Repr

/-- An element of the user queue: `list[str | BaseExtractModel]` in
`AudioQueueManager.__init__` — either a raw URL string or a track dict. -/
abbrev QItem := Sum String Track

/-! ## EventManager (`src/server.py` lines 26–109)

State of `EventManager`: the shutdown flag, the pending event queue
(pairs of event type and already-serialized JSON payload), and the set of
subscriber queues (each a list of formatted SSE frames, oldest first). -/

structure EMState where
  shutdown_requested : Bool := false
  event_queue : List (String × String) := []
  user_list : List (List String) := []
  deriving DecidableEq, Repr

def SHUTDOWN : String := "shutdown"

namespace EventManager

/-- `EventManager.add_event`: returns immediately when shutdown was
requested, otherwise puts the `(event_type, data)` pair on the shared
event queue (the queue is unbounded, so `put` never fails). -/
def add_event (em : EMState) (e : String × String) : EMState :=
  if em.shutdown_requested then em
  else { em with event_queue := em.event_queue ++ [e] }

/-- `EventManager.shutdown`: sets `_shutdown_requested`, puts the
`(SHUTDOWN, None)` sentinel on the event queue (`json.dumps(None)` would
serialize it as `"null"`), and clears `_user_list`. -/
def shutdown (em : EMState) : EMState :=
  { em with
    shutdown_requested := true
    event_queue := em.event_queue ++ [(SHUTDOWN, "null")]
    user_list := [] }

/-- The SSE framing applied by `_manage_events`:
`f"event: {event_type}\ndata: {json.dumps(event_data)}\n\n"` with the
payload already serialized. -/
def formatEvent (event_type : String) (payload : String) : String :=
  "event: " ++ event_type ++ "\ndata: " ++ payload ++ "\n\n"

/-- One iteration of the `_manage_events` dispatcher loop.  `none` means
the loop guard `while not self._shutdown_requested` failed and the
dispatcher thread exits; otherwise the oldest pending event is formatted
and appended to every subscriber queue (`put_nowait`; subscriber queues
are unbounded so `Full` never occurs). -/
def manage_events_step (em : EMState) : Option EMState :=
  if em.shutdown_requested then none
  else
    match em.event_queue with
    | [] => some em
    | e :: rest =>
        some { em with
               event_queue := rest
               user_list := em.user_list.map (fun q => q ++ [formatEvent e.1 e.2]) }

/-- What one iteration of the `watch` generator loop does for a
subscriber whose queue front is as given. -/
inductive WatchStep where
  | exitFlag
  | exitSentinel
  | yieldFrame (frame : String)
  | timeoutRetry
  deriving DecidableEq, Repr

/-- One iteration of `EventManager.watch`: the loop guard
`while not self._shutdown_requested` exits when the flag is set;
otherwise a frame is pulled from the subscriber queue (retrying on the
1-second timeout when it is empty), the generator breaks if the frame
equals the raw `SHUTDOWN` constant, and yields the frame otherwise. -/
def watch_step (flag : Bool) (q : List String) : WatchStep :=
  if flag then .exitFlag
  else
    match q with
    | [] => .timeoutRetry
    | frame :: _ => if frame = SHUTDOWN then .exitSentinel else .yieldFrame frame

end EventManager

/-! ## Track history (`AudioQueueManager._add_to_history`)

`_track_history` is a `Queue[str]` with `maxsize=50`; oldest element at
the head of the list. -/

def HISTORY_CAPACITY : Nat := 50

/-- `AudioQueueManager._add_to_history`: when the bounded queue is full
the oldest entry is removed with `get_nowait()`, then the new id is
appended with `put_nowait`. -/
def add_to_history (h : List String) (track_id : String) : List String :=
  (if h.length = HISTORY_CAPACITY then h.drop 1 else h) ++ [track_id]

/-- The history after a sequence of tracks started playback, each id
appended via `_add_to_history` in start order, beginning from an empty
history. -/
def history_after (ids : List String) : List String :=
  ids.foldl add_to_history []

/-! ## AudioQueueManager state (`src/server.py` lines 112–208)

The fields of `AudioQueueManager` that the queue / playback / shutdown
operations read and write.  Threads and locks are not part of the state:
the lock-protected operations are modelled as atomic state
transformers.  `reader_alive` stands for
`self._audio_reader_thread.is_alive()`; `ffmpeg_running` for the main
mixer process being live; `track_processes` for the registry of
per-track transcoder processes (identified by opaque numbers). -/

structure AQMState where
  stopped : Bool := false
  user_queue : List QItem := []
  auto_queue : List Track := []
  track_history : List String := []
  skip_event : Bool := false
  now_playing : Option Track := none
  header_data : List Nat := []
  buffer_data : List Nat := []
  audio_header_event : Bool := false
  audio_buffer_event : Bool := false
  next_track_signal : Bool := false
  track_processes : List Nat := []
  reader_alive : Bool := true
  ffmpeg_running : Bool := true
  em : EMState := {}
  deriving DecidableEq, Repr

namespace AudioQueueManager

/-- `AudioQueueManager._get_history_ids`: the set of ids currently in the
bounded history queue (membership in the modelling list). -/
def get_history_ids (s : AQMState) : List String :=
  s.track_history

/-- `AudioQueueManager._filter_duplicate_tracks`: keeps a track when
`track.get("id")` is truthy (present and non-empty) and not among the
history ids; all other tracks are dropped. -/
def filter_duplicate_tracks (history_ids : List String) (tracks : List Track) :
    List Track :=
  tracks.filter fun t =>
    match t.tid with
    | none => false
    | some i => !(i == "") && !(history_ids.contains i)

/-- `AudioQueueManager._populate_auto_queue` with the related-track
lists returned by the two extractor backends passed in: the code uses
`get_youtube_music_related_tracks(...) or get_youtube_related_tracks(...)
or []`, i.e. the first non-empty (truthy) result.  When not stopped, the
auto queue is empty and a track is playing, the deduplicated related
tracks are appended to the auto queue. -/
def populate_auto_queue (s : AQMState) (music_related yt_related : List Track) :
    AQMState :=
  if s.stopped then s
  else if s.auto_queue.isEmpty && s.now_playing.isSome then
    let related := if !music_related.isEmpty then music_related else yt_related
    { s with auto_queue :=
        s.auto_queue ++ filter_duplicate_tracks (get_history_ids s) related }
  else s

/-- `AudioQueueManager.get_next_track`: returns `None` when stopped;
otherwise, under the queue lock, a non-empty user queue clears the auto
queue and pops its front; else, with an empty auto queue and a playing
track, the auto queue is refilled synchronously; finally the front of
the auto queue (if any) is popped. -/
def get_next_track (s : AQMState) (music_related yt_related : List Track) :
    Option QItem × AQMState :=
  if s.stopped then (none, s)
  else
    match s.user_queue with
    | q :: rest => (some q, { s with user_queue := rest, auto_queue := [] })
    | [] =>
      let s1 :=
        if s.auto_queue.isEmpty && s.now_playing.isSome then
          populate_auto_queue s music_related yt_related
        else s
      match s1.auto_queue with
      | t :: rest => (some (Sum.inr t), { s1 with auto_queue := rest })
      | [] => (none, s1)

/-- `AudioQueueManager._add_to_queue` with the result of
`extractor.extract_video_info(url, process=False)` passed in
(`none` both for a falsy result and for a raised extractor error, which
the code logs and swallows): appends the track to the user queue and
emits a `queueadd` event. -/
def add_to_queue (s : AQMState) (track_info : Option Track) : AQMState :=
  if s.stopped then s
  else
    match track_info with
    | some t =>
        { s with
          user_queue := s.user_queue ++ [Sum.inr t]
          em := EventManager.add_event s.em ("queueadd", "{}") }
    | none => s

/-- `AudioQueueManager.add_track`: when not stopped, runs
`_add_to_queue` on a worker thread; the state effect is that of
`_add_to_queue`. -/
def add_track (s : AQMState) (track_info : Option Track) : AQMState :=
  if !s.stopped then add_to_queue s track_info else s

/-- `AudioQueueManager.skip_track`: sets the skip event unless
stopped. -/
def skip_track (s : AQMState) : AQMState :=
  if !s.stopped then { s with skip_event := true } else s

/-- `AudioQueueManager.is_alive`: the ogg reader thread is alive and
shutdown has not been requested. -/
def is_alive (s : AQMState) : Bool :=
  s.reader_alive && !s.stopped

/-- `AudioQueueManager.buffer`: raises `InterruptedError` when
`not self._buffer_data and self.is_alive() or self._stopped` — by Python
precedence `(no data ∧ alive) ∨ stopped` — and returns the most recent
broadcast frame otherwise. -/
def buffer (s : AQMState) : Except Unit (List Nat) :=
  if (s.buffer_data.isEmpty && is_alive s) || s.stopped then .error ()
  else .ok s.buffer_data

/-- `AudioQueueManager.shutdown`: a second call returns at once under
the `if self._stopped: return` guard; the first call marks stopped, sets
the skip event, shuts the event manager down, sweeps the per-track
process registry, closes and terminates the main mixer, and pulses the
buffer/header/next-track events to unblock waiters. -/
def shutdown (s : AQMState) : AQMState :=
  if s.stopped then s
  else
    { s with
      stopped := true
      skip_event := true
      em := EventManager.shutdown s.em
      track_processes := []
      ffmpeg_running := false
      audio_buffer_event := true
      audio_header_event := true
      next_track_signal := true }

end AudioQueueManager

/-! ## Extractor (`src/extractor.py`)

The dict returned by `yt_dlp`'s `extract_info` is modelled with the
keys read by `extract_video_info`; durations are Python floats, embedded
as rationals, and an absent key is `none`. -/

structure VideoData where
  is_live : Bool := false
  duration : Option ℚ := none
  title : Option String := none
  vid : Option String := none
  webpage_url : Option String := none
  original_url : Option String := none
  url : Option String := none
  uploader : Option String := none
  asr : Nat := 0
  acodec : String := "none"
  deriving DecidableEq, Repr

/-- The top-level `yt_dlp` result: `data.get("entries")` is truthy when
a playlist was extracted (its items may themselves be `None`); the
non-playlist keys are in `info`. -/
structure RawData where
  entries : List (Option VideoData) := []
  info : VideoData := {}
  deriving DecidableEq, Repr

inductive ExtractError where
  | unavailable
  | live
  | overLength
  deriving DecidableEq, Repr

/-- The fields of the `ExtractModel` dict built by
`extract_video_info` on success (the `process=False` shape). -/
structure ExtractModel where
  title : String
  mid : String
  webpage_url : String
  duration : ℚ
  channel : String
  need_reencode : Bool
  deriving DecidableEq, Repr

def MAX_DURATION_SECONDS : ℚ := 481

/-- `is_video_too_long`: `duration = video_info.get("duration", -1)`;
a falsy (`0`/`0.0`) or negative duration counts as too long ("assume too
long if no info"); otherwise too long iff the duration exceeds
`MAX_DURATION_SECONDS = 481.0`. -/
def is_video_too_long (v : VideoData) : Bool :=
  let d := v.duration.getD (-1)
  if d = 0 || d < 0 then true else decide (d > MAX_DURATION_SECONDS)

/-- `_check_audio_requirements`: re-encode when the sample rate is not
48000 Hz or the codec is not opus. -/
def check_audio_requirements (v : VideoData) : Bool :=
  !(v.asr == 48000) || !(v.acodec == "opus")

/-- `extract_video_info(url, process=False)` given the raw `yt_dlp`
result (`none` when nothing was extracted, which raises
`VideoIsUnavailableException`).  A truthy `entries` list replaces the
data with its first entry (raising `Unavailable` when that entry is
falsy); a live video raises `VideoIsLiveException`; a too-long video
raises `VideoIsOverLengthException`; otherwise the `ExtractModel` dict
is assembled with the source's defaulting chains. -/
def extract_video_info (data : Option RawData) (request_url : String) :
    Except ExtractError ExtractModel :=
  match data with
  | none => .error .unavailable
  | some d =>
    let sel : Except ExtractError VideoData :=
      if d.entries.isEmpty then .ok d.info
      else
        match d.entries.head? with
        | some (some v) => .ok v
        | _ => .error .unavailable
    match sel with
    | .error e => .error e
    | .ok v =>
      if v.is_live then .error .live
      else if is_video_too_long v then .error .overLength
      else
        .ok
          { title := v.title.getD "Unknown Title"
            mid := v.vid.getD "unknown"
            webpage_url :=
              -- `a or b or c` yields `c` whenever `a` and `b` are falsy,
              -- even when `c` is itself falsy
              ((v.webpage_url.filter (· != "")).orElse fun _ =>
                v.original_url.filter (· != "")).getD (v.url.getD request_url)
            duration := v.duration.getD 0
            channel := v.uploader.getD "Unknown Channel"
            need_reencode := check_audio_requirements v }

/-! ## Ogg stream header (`AudioQueueManager._read_ogg_stream`,
`wait_for_header`)

Modelled from the spec: the `OggPage` type comes from
`src/opusreader.py`, which is not among the provided source files.  Per
the spec's data model, an `OggPage` carries `header` (the 23-byte
remainder of the page header after the `OggS` magic), `segtable`,
`data` (payload bytes), and `flag` (the header-type byte, byte 5 of the
original header, value 2 marking a Beginning-of-Stream page).  Pages are
byte lists here. -/

structure OggPage where
  header : List Nat := []
  segtable : List Nat := []
  data : List Nat := []
  deriving DecidableEq, Repr

/-- Modelled from the spec: the page's `header_type` flag, "byte 5 of
the original header", i.e. index 1 of the 23-byte remainder kept in
`header` (index 0 is the version byte).  The Ogg Page Reader
(`src/opusreader.py`, not among the provided sources) exposes it as
`page.flag`; value 2 marks a Beginning-of-Stream page. -/
def OggPage.flag (p : OggPage) : Nat :=
  p.header.getD 1 0

/-- The ASCII bytes of the `OggS` capture pattern. -/
def oggMagic : List Nat := [0x4F, 0x67, 0x67, 0x53]

/-- The serialization `b"OggS" + page.header + page.segtable + page.data`
used by `_read_ogg_stream` for each of the two header pages. -/
def serializePage (p : OggPage) : List Nat :=
  oggMagic ++ p.header ++ p.segtable ++ p.data

/-- The header bytes published by `_read_ogg_stream` (and handed out by
`wait_for_header`) as a function of the page sequence parsed from the
main mixer's stdout: the first two pages are serialized and
concatenated.  A non-BOS first page (`first_page.flag != 2`) only logs a
warning — the header is published regardless.  `none` when the stream
ends before two pages were read (`StopIteration`), in which case no
header is ever published. -/
def read_ogg_header (pages : List OggPage) : Option (List Nat) :=
  match pages with
  | p1 :: p2 :: _ => some (serializePage p1 ++ serializePage p2)
  | _ => none

/-! ## Queue pagination (`src/routes/queue.py`, `get_queue_info`)

For a page index `page ≥ 0` (modelled as `Nat`) the route computes
`end_offset = min((page_index + 1) * 5, len(queue))`,
`start_offset = max(end_offset - 5, 0)` and answers with the Python
slice `queue[start_offset:end_offset]`. -/

def ITEMS_PER_PAGE : Nat := 5

/-- Python `l[a:b]` for `0 ≤ a ≤ b`: the elements with indices in
`[a, b)`. -/
def pySlice (l : List α) (a b : Nat) : List α :=
  (l.take b).drop a

/-- The `queue` field of the `GET /queue/` response: the paginated
slice of the user-queue snapshot. -/
def get_queue_page (queue : List α) (page_index : Nat) : List α :=
  let end_offset := min ((page_index + 1) * ITEMS_PER_PAGE) queue.length
  let start_offset := end_offset - ITEMS_PER_PAGE
  pySlice queue start_offset end_offset

/-! ## Theorems -/

section History

/-- Auxiliary invariant for the bounded history: folding
`_add_to_history` over a list of started ids from any in-capacity
history keeps exactly the last `HISTORY_CAPACITY` elements of the
concatenation. -/
lemma foldl_add_to_history (ids : List String) :
    ∀ h : List String, h.length ≤ HISTORY_CAPACITY →
      ids.foldl add_to_history h =
        (h ++ ids).drop (h.length + ids.length - HISTORY_CAPACITY) := by
  induction ids with
  | nil =>
      intro h hle
      simp [Nat.sub_eq_zero_of_le hle]
  | cons i ids ih =>
      intro h hle
      rw [List.foldl_cons]
      by_cases hfull : h.length = HISTORY_CAPACITY
      · obtain ⟨a, h', rfl⟩ : ∃ a t, h = a :: t := by
          cases h with
          | nil => exact absurd hfull (by simp [HISTORY_CAPACITY])
          | cons a t => exact ⟨a, t, rfl⟩
        have h1 : add_to_history (a :: h') i = h' ++ [i] := by
          simp [add_to_history, hfull]
        have hlc : h'.length + 1 = HISTORY_CAPACITY := by simpa using hfull
        have hlen : (h' ++ [i]).length ≤ HISTORY_CAPACITY := by
          simp; omega
        rw [h1, ih _ hlen]
        simp only [List.length_append, List.length_cons, List.length_nil,
          Nat.zero_add, List.cons_append]
        rw [show h'.length + 1 + (ids.length + 1) - HISTORY_CAPACITY =
              ids.length + 1 from by omega,
            show h'.length + 1 + ids.length - HISTORY_CAPACITY = ids.length from by
              omega,
            List.drop_succ_cons, List.append_assoc, List.singleton_append]
      · have h1 : add_to_history h i = h ++ [i] := by
          simp [add_to_history, hfull]
        have hlen : (h ++ [i]).length ≤ HISTORY_CAPACITY := by
          simp; omega
        rw [h1, ih _ hlen]
        rw [show (h ++ [i]) ++ ids = h ++ i :: ids by simp]
        congr 1
        simp
        omega

/-- C3: after a sequence of `N` started tracks each appended its id via
`_add_to_history`, the history holds exactly `min(N, 50)` ids, namely
the ids of the last `min(N, 50)` started tracks in start order (the
oldest having been evicted once capacity 50 was exceeded). -/
theorem history_bounded_after_plays (ids : List String) :
    history_after ids = ids.drop (ids.length - HISTORY_CAPACITY) ∧
      (history_after ids).length = min ids.length HISTORY_CAPACITY := by
  have h := foldl_add_to_history ids [] (by simp)
  simp only [List.nil_append, List.length_nil, Nat.zero_add] at h
  rw [history_after, h]
  refine ⟨rfl, ?_⟩
  rw [List.length_drop]
  omega

end History

section Pagination

/-- C9: for every user-queue snapshot and page index `page ≥ 0`, the
`queue` field answered by `GET /queue/` is the slice
`[max(0, end - 5), end)` of the queue with
`end = min((page + 1) * 5, len)`: it equals
`(queue.drop (end - 5)).take (end - (end - 5))`, and its `i`-th element
is the queue element at index `(end - 5) + i` exactly while
`(end - 5) + i < end`. -/
theorem queue_page_is_spec_slice (q : List α) (page i : Nat) :
    get_queue_page q page =
      (q.drop (min ((page + 1) * 5) q.length - 5)).take
        (min ((page + 1) * 5) q.length - (min ((page + 1) * 5) q.length - 5)) ∧
    (get_queue_page q page)[i]? =
      (if (min ((page + 1) * 5) q.length - 5) + i < min ((page + 1) * 5) q.length
       then q[(min ((page + 1) * 5) q.length - 5) + i]?
       else none) := by
  constructor
  · simp only [get_queue_page, pySlice, ITEMS_PER_PAGE]
    rw [List.drop_take]
  · simp only [get_queue_page, pySlice, ITEMS_PER_PAGE]
    rw [List.getElem?_drop, List.getElem?_take]

end Pagination

section QueueManager

open AudioQueueManager

/-- C1 counterexample: in the stopped state with a non-empty user queue
and a non-empty auto queue, `get_next_track` returns `None` under the
`if self._stopped: return None` guard instead of popping the user-queue
front, and the auto queue is not cleared (so it is non-empty after the
call). -/
theorem get_next_track_stopped_counterexample :
    ({ stopped := true, user_queue := [Sum.inl "u"],
       auto_queue := [{ tid := some "a" }] } : AQMState).user_queue ≠ [] ∧
    (get_next_track
        { stopped := true, user_queue := [Sum.inl "u"],
          auto_queue := [{ tid := some "a" }] } [] []).1 = none ∧
    (get_next_track
        { stopped := true, user_queue := [Sum.inl "u"],
          auto_queue := [{ tid := some "a" }] } [] []).2.auto_queue ≠ [] := by
  refine ⟨by decide, rfl, by decide⟩

/-- C1 (amended): in every *non-stopped* state whose user queue is
non-empty, `get_next_track` clears the auto queue and removes and
returns the front element of the user queue; hence the auto queue is
empty after the call. -/
theorem get_next_track_user_preemption (s : AQMState) (q : QItem)
    (rest : List QItem) (music yt : List Track)
    (hstop : s.stopped = false) (hq : s.user_queue = q :: rest) :
    get_next_track s music yt =
      (some q, { s with user_queue := rest, auto_queue := [] }) ∧
    (get_next_track s music yt).2.auto_queue = [] := by
  rw [get_next_track, hstop, hq]
  exact ⟨rfl, rfl⟩

/-- Witness for the amended C1 theorem at a concrete non-stopped
state. -/
theorem get_next_track_user_preemption_witness :
    get_next_track
        { user_queue := [Sum.inl "u", Sum.inr { tid := some "b" }],
          auto_queue := [{ tid := some "a" }] } [] [] =
      (some (Sum.inl "u"),
        { user_queue := [Sum.inr { tid := some "b" }], auto_queue := [] }) ∧
    (get_next_track
        { user_queue := [Sum.inl "u", Sum.inr { tid := some "b" }],
          auto_queue := [{ tid := some "a" }] } [] []).2.auto_queue = [] :=
  get_next_track_user_preemption _ _ _ [] [] rfl rfl

/-- C2: whenever `_populate_auto_queue` actually refills (not stopped,
auto queue empty, a track playing), every track in the resulting auto
queue has a present, non-empty id that is not in the history at the
moment of appending — so no auto-queue track id lies in `History`
immediately after the refill. -/
theorem populate_auto_queue_dedup (s : AQMState) (music yt : List Track)
    (t0 : Track) (hstop : s.stopped = false) (hempty : s.auto_queue = [])
    (hplaying : s.now_playing = some t0) (t : Track)
    (ht : t ∈ (populate_auto_queue s music yt).auto_queue)
    (i : String) (hi : t.tid = some i) :
    i ≠ "" ∧ i ∉ get_history_ids s := by
  rw [populate_auto_queue, hstop] at ht
  simp only [Bool.false_eq_true, if_false, hempty, hplaying, List.isEmpty_nil,
    Option.isSome_some, Bool.and_self, if_true, List.nil_append] at ht
  obtain ⟨-, hpred⟩ := List.mem_filter.mp ht
  rw [hi] at hpred
  simp only [Bool.and_eq_true, bne_iff_ne, ne_eq, Bool.not_eq_true'] at hpred
  obtain ⟨h1, h2⟩ := hpred
  refine ⟨by simpa using h1, ?_⟩
  simpa [get_history_ids, hempty] using h2

/-- Witness for the C2 theorem: a concrete refill where the related
list contains a track already in history, a fresh track, and a track
without an id; the fresh track ends up in the auto queue with an id
outside the history. -/
theorem populate_auto_queue_dedup_witness :
    "new" ≠ "" ∧
    "new" ∉ get_history_ids
        { track_history := ["h1"], now_playing := some { tid := some "cur" } } :=
  populate_auto_queue_dedup
    { track_history := ["h1"], now_playing := some { tid := some "cur" } }
    [{ tid := some "h1" }, { tid := some "new" }, { tid := none }] []
    { tid := some "cur" } rfl rfl rfl { tid := some "new" } (by decide)
    "new" rfl

/-- C8: `shutdown` marks the controller stopped, and a second call is a
no-op: it returns (without raising) and leaves the entire controller
state exactly as the first call left it. -/
theorem shutdown_idempotent (s : AQMState) :
    (AudioQueueManager.shutdown s).stopped = true ∧
    AudioQueueManager.shutdown (AudioQueueManager.shutdown s) =
      AudioQueueManager.shutdown s := by
  cases h : s.stopped <;>
    simp [AudioQueueManager.shutdown, h]

/-- C10: once stopped, the public mutators are no-ops: `add_track`
leaves the state unchanged for any extraction result, `skip_track` does
not set the skip flag, `get_next_track` returns `None` without touching
either queue, and `EventManager.add_event` enqueues nothing once the
event manager's shutdown was requested. -/
theorem stopped_mutators_noop (s : AQMState) (hs : s.stopped = true)
    (ti : Option Track) (music yt : List Track)
    (em : EMState) (he : em.shutdown_requested = true) (e : String × String) :
    add_track s ti = s ∧
    skip_track s = s ∧
    get_next_track s music yt = (none, s) ∧
    EventManager.add_event em e = em := by
  refine ⟨?_, ?_, ?_, ?_⟩ <;>
    simp [add_track, skip_track, get_next_track, EventManager.add_event, hs, he]

/-- Witness for the C10 theorem at a concrete stopped state. -/
theorem stopped_mutators_noop_witness :
    add_track { stopped := true } (some { tid := some "x" }) =
      { stopped := true } ∧
    skip_track ({ stopped := true } : AQMState) = { stopped := true } ∧
    get_next_track { stopped := true } [] [] = (none, { stopped := true }) ∧
    EventManager.add_event { shutdown_requested := true } ("next", "{}") =
      { shutdown_requested := true } :=
  stopped_mutators_noop { stopped := true } rfl (some { tid := some "x" }) [] []
    { shutdown_requested := true } rfl ("next", "{}")

end QueueManager

section Buffer

open AudioQueueManager

/-- C4 counterexample: in the state with no frame yet, a live reader
thread and no shutdown — a state where the station is alive — the
`buffer` accessor raises `InterruptedError` instead of returning: the
guard `not self._buffer_data and self.is_alive() or self._stopped`
parses as `(no data ∧ alive) ∨ stopped`, not as the spec's
`no data ∧ dead`. -/
theorem buffer_raises_while_alive_counterexample :
    is_alive ({} : AQMState) = true ∧
    buffer ({} : AQMState) = .error () := by
  exact ⟨rfl, rfl⟩

/-- C4 (amended): `buffer` raises `Interrupted` exactly when the
station was stopped, or when no frame is available while the reader
thread is alive and the station is not stopped; in every other state
(in particular whenever a frame is available and the station was not
stopped, and also when no frame is available but the reader thread
died without a shutdown) it returns the most recent broadcast frame
without raising. -/
theorem buffer_error_characterization (s : AQMState) :
    (buffer s = .error () ↔
      s.stopped = true ∨
        (s.buffer_data = [] ∧ s.reader_alive = true ∧ s.stopped = false)) ∧
    (buffer s = .error () ∨ buffer s = .ok s.buffer_data) := by
  cases hst : s.stopped <;> cases hra : s.reader_alive <;>
    cases hbd : s.buffer_data <;>
      simp [buffer, is_alive, hst, hra, hbd]

end Buffer

section Events

open EventManager

/-- C6 counterexample: starting from an event manager with one
connected subscriber (an empty subscriber queue) and no pending events,
`shutdown()` sets the flag, enqueues the sentinel and clears the
subscriber registry — after which the dispatcher loop exits immediately
(`while not self._shutdown_requested` fails) without delivering the
sentinel to anyone, so the subscriber's queue never receives the
sentinel frame; moreover even a dispatched sentinel would arrive
SSE-formatted and thus never satisfy `watch`'s
`event == EventManager.SHUTDOWN` comparison. -/
theorem shutdown_sentinel_undelivered_counterexample :
    manage_events_step (EventManager.shutdown { user_list := [[]] }) = none ∧
    (EventManager.shutdown { user_list := [[]] }).user_list = [] ∧
    formatEvent SHUTDOWN "null" ≠ SHUTDOWN := by
  refine ⟨rfl, rfl, by decide⟩

/-- C6 (amended): `shutdown()` enqueues the shutdown sentinel on the
dispatcher's event queue, sets the shutdown flag and clears the
subscriber registry; every subscriber's `watch()` iterator then
terminates because it observes the flag at its next loop check — not by
receiving the sentinel frame, since the dispatcher thread's own loop
guard makes it exit before dispatching anything further. -/
theorem shutdown_terminates_subscribers_via_flag (em : EMState)
    (q : List String) :
    (EventManager.shutdown em).shutdown_requested = true ∧
    (EventManager.shutdown em).event_queue =
      em.event_queue ++ [(SHUTDOWN, "null")] ∧
    (EventManager.shutdown em).user_list = [] ∧
    manage_events_step (EventManager.shutdown em) = none ∧
    watch_step (EventManager.shutdown em).shutdown_requested q =
      .exitFlag := by
  refine ⟨rfl, rfl, rfl, ?_, rfl⟩
  rw [manage_events_step]
  simp [EventManager.shutdown]

end Events

section OggHeader

/-- C7 counterexample: a page stream whose first page is not a
Beginning-of-Stream page (header-type byte 0, so `flag ≠ 2`) still gets
its first two pages serialized and published as the stream header —
`_read_ogg_stream` only logs a warning on `first_page.flag != 2` and
publishes regardless. -/
theorem header_published_without_bos_counterexample :
    read_ogg_header
        [{ header := [0, 0, 3], segtable := [1], data := [9] },
         { header := [0, 1, 4], segtable := [2], data := [8] }] =
      some (serializePage { header := [0, 0, 3], segtable := [1], data := [9] } ++
        serializePage { header := [0, 1, 4], segtable := [2], data := [8] }) ∧
    OggPage.flag { header := [0, 0, 3], segtable := [1], data := [9] } ≠ 2 := by
  refine ⟨rfl, by decide⟩

/-- C7 (amended): the stream header published by `wait_for_header` is
exactly `OggS + header + segtable + data` of the first Ogg page read
from the main mixer's stdout followed by the same serialization of the
second page, for *any* two leading pages: the BOS flag of the first
page is only checked to log a warning and does not condition
publication. -/
theorem header_exact_two_page_serialization (p1 p2 : OggPage)
    (rest : List OggPage) :
    read_ogg_header (p1 :: p2 :: rest) =
      some ((oggMagic ++ p1.header ++ p1.segtable ++ p1.data) ++
        (oggMagic ++ p2.header ++ p2.segtable ++ p2.data)) := by
  rfl

end OggHeader

section Extractor

/-- C5 counterexample: a known 481-second track exceeds 8 minutes
(480 s), yet `extract_video_info` does not raise `OverLength`: the
source's cutoff is `MAX_DURATION_SECONDS = 481.0`, so only durations
strictly above 481 s are rejected. -/
theorem overlength_threshold_counterexample :
    ((481 : ℚ) > 480) ∧
    ({ duration := some 481 } : VideoData).is_live = false ∧
    extract_video_info (some { info := { duration := some 481 } }) "u" ≠
      Except.error ExtractError.overLength := by
  refine ⟨by norm_num, rfl, ?_⟩
  norm_num [extract_video_info, is_video_too_long, MAX_DURATION_SECONDS]
  exact fun h => Except.noConfusion h

/-- C5 (amended): for an available, non-live track,
`extract_video_info` raises `OverLength` exactly when the track's
duration is missing, zero, or negative (assumed too long), or exceeds
481 seconds; every track with a known positive duration of at most
481 seconds passes the length check. -/
theorem overlength_raise_characterization (v : VideoData) (u : String)
    (hlive : v.is_live = false) :
    extract_video_info (some { info := v }) u =
        .error .overLength ↔
      (v.duration.getD (-1) = 0 ∨ v.duration.getD (-1) < 0 ∨
        v.duration.getD (-1) > 481) := by
  have hd : (is_video_too_long v = true) ↔
      (v.duration.getD (-1) = 0 ∨ v.duration.getD (-1) < 0 ∨
        v.duration.getD (-1) > 481) := by
    rw [is_video_too_long, MAX_DURATION_SECONDS]
    by_cases h1 : v.duration.getD (-1) = 0 <;>
      by_cases h2 : v.duration.getD (-1) < 0 <;>
        by_cases h3 : (481 : ℚ) < v.duration.getD (-1) <;>
          simp [h1, h2, h3]
  cases htl : is_video_too_long v <;>
    simp [extract_video_info, hlive, htl, ← hd]

/-- Witness for the amended C5 theorem: a non-live 500-second track is
rejected as over-length. -/
theorem overlength_raise_characterization_witness :
    extract_video_info (some { info := { duration := some 500 } }) "u" =
        .error .overLength ↔
      ((Option.some (500 : ℚ)).getD (-1) = 0 ∨
        (Option.some (500 : ℚ)).getD (-1) < 0 ∨
        (Option.some (500 : ℚ)).getD (-1) > 481) :=
  overlength_raise_characterization { duration := some 500 } "u" rfl

end Extractor

end PyLive
